import Mathlib

/-!
Shallow embedding of the serverless functions of this repository:

* `src/netlify/functions/check-printful-shipments.js` — the polling job
  (`handler`, `fetchRecentShippedOrders`, `checkIfEmailSent`, the per-order
  loop body, `markEmailAsSent`);
* `src/unnamed/part_000` — three near-duplicate webhook handler variants
  (`handler1`, `handler2`, `handler3` below, in file order);
* `src/solr/backend/index.js` — the bulk-index endpoint (`POST /api/index`).

External HTTP calls and the blob store are modelled by environments that
supply the outcome of each outbound operation; every handler additionally
returns the list of outbound calls it issued, so that "issues no outbound
request" is a statement about that list.  JavaScript truthiness on strings
and numbers is modelled explicitly (`jsFalsy`, `jsOrNat`, `jsOrStrD`).
-/

/-- JavaScript truthiness test for an optional string: `undefined`, `null`
and the empty string are falsy; any other string is truthy. -/
def jsFalsy (s : Option String) : Bool :=
  s.getD "" = ""

/-- JavaScript `q || d` on an optional number: `undefined` and `0` fall back
to the default `d`. -/
def jsOrNat (q : Option Nat) (d : Nat) : Nat :=
  match q with
  | none => d
  | some n => if n = 0 then d else n

/-- JavaScript `s || d` on an optional string with a string default. -/
def jsOrStrD (s : Option String) (d : String) : String :=
  if jsFalsy s then d else s.getD d

/-- JavaScript `a || b` where both operands are optional strings
(`order.external_id || order.id`). -/
def jsOrO (a b : Option String) : Option String :=
  if jsFalsy a then b else a

/-- An HTTP response from an external service, as seen through `fetch`. -/
structure HttpResp where
  status : Nat
deriving DecidableEq

/-- `response.ok` : status in the range 200–299. -/
def HttpResp.respOk (r : HttpResp) : Bool :=
  200 ≤ r.status && r.status ≤ 299

/-! ## Polling job: `check-printful-shipments.js` -/

/-- A shipment record inside a provider order.  `shipped_at` is `none` when
the field is absent or null; a present date string is truthy. -/
structure PFShipment where
  shipped_at : Option Int
deriving DecidableEq

/-- A provider order as returned by the order-list endpoint. -/
structure PFOrder where
  id : Nat
  shipments : List PFShipment
  updated : Int
deriving DecidableEq

/-- Outcome of the order-list fetch: the request rejected, the response was
not ok, or it succeeded with an optional `result` array. -/
inductive FetchOutcome where
  | reject
  | notOk (status : Nat)
  | ok (result : Option (List PFOrder))
deriving DecidableEq

/-- `new Date(order.shipments[0].shipped_at || order.updated).getTime()` for
an order with a nonempty shipments array (unused value on an empty one). -/
def firstShipTime (o : PFOrder) : Int :=
  match o.shipments with
  | [] => 0
  | s :: _ => s.shipped_at.getD o.updated

/-- `fetchRecentShippedOrders` (lines 107–144): on a rejected request or a
non-ok response, return `[]`; otherwise filter `data.result || []` to the
orders with a nonempty shipments array whose first shipment time is strictly
later than 24 hours before `now`. -/
def fetchRecentShippedOrders (resp : FetchOutcome) (now : Int) : List PFOrder :=
  match resp with
  | .reject => []
  | .notOk _ => []
  | .ok result =>
    let orders := result.getD []
    orders.filter fun o =>
      !o.shipments.isEmpty && decide (firstShipTime o > now - 24 * 60 * 60 * 1000)

/-- `checkIfEmailSent` (lines 323–336) as a function of the blob-store read
outcome: a thrown read yields `false`; otherwise the stored value must be
the string `sent`. -/
def checkIfEmailSent (storeGet : Except Unit (Option String)) : Bool :=
  match storeGet with
  | .error _ => false
  | .ok v => v = some "sent"

/-- Abstract shipment detail returned by `getShipmentInfo`; the loop only
tests it for null-ness, so its fields are irrelevant to the claims. -/
structure ShipmentInfo where
  trackingNumber : String
deriving DecidableEq

/-- The external outcomes one iteration of the per-order loop can observe:
either one of the awaited operations rejects and the exception reaches the
catch at lines 76–79, or the iteration runs with a given blob-store read
outcome, `getShipmentInfo` result and email-send success flag.  (The three
helper calls each trap their own errors, so `throws` models a host-level
rejection before any successful send.) -/
inductive OrderEnv where
  | throws
  | runs (storeGet : Except Unit (Option String))
         (info : Option ShipmentInfo) (sendOk : Bool)

/-- What one loop iteration did: whether the email send was attempted,
whether it reported success (line 67), whether `markEmailAsSent` was invoked
(line 69), and whether the iteration incremented `errors` (lines 73 and 78). -/
structure StepTrace where
  attempted : Bool
  sent : Bool
  marked : Bool
  errored : Bool
deriving DecidableEq

/-- The body of the per-order loop (lines 42–80). -/
def processOrder : OrderEnv → StepTrace
  | .throws => ⟨false, false, false, true⟩
  | .runs storeGet info sendOk =>
    if checkIfEmailSent storeGet then
      ⟨false, false, false, false⟩
    else
      match info with
      | none => ⟨false, false, false, false⟩
      | some _ =>
        if sendOk then ⟨true, true, true, false⟩ else ⟨true, false, false, true⟩

/-- The loop over the filtered orders with the two mutable counters
`emailsSent` and `errors`; the environment maps the loop index to that
iteration's external outcomes. -/
def runLoop (envF : Nat → OrderEnv) : List PFOrder → Nat → Nat → Nat → Nat × Nat
  | [], _, emailsSent, errors => (emailsSent, errors)
  | _ :: rest, i, emailsSent, errors =>
    let t := processOrder (envF i)
    runLoop envF rest (i + 1)
      (if t.sent then emailsSent + 1 else emailsSent)
      (if t.errored then errors + 1 else errors)

/-- The whole environment a run of the polling job observes. -/
structure PollEnv where
  hasKeys : Bool
  fetchResp : FetchOutcome
  now : Int
  orderEnv : Nat → OrderEnv

/-- Responses of the polling-job handler: missing API keys (500) or a
completed check (200) with the three counters of the body. -/
inductive PollResponse where
  | missingKeys
  | completed (ordersFound emailsSent errors : Nat)
deriving DecidableEq

/-- Status code of a polling-job response. -/
def PollResponse.statusCode : PollResponse → Nat
  | .missingKeys => 500
  | .completed _ _ _ => 200

/-- The polling-job `handler` (lines 17–102). -/
def pollHandler (env : PollEnv) : PollResponse :=
  if !env.hasKeys then .missingKeys
  else
    let orders := fetchRecentShippedOrders env.fetchResp env.now
    let counts := runLoop env.orderEnv orders 0 0 0
    .completed orders.length counts.1 counts.2

/-! ## Webhook handlers: `src/unnamed/part_000` (three variants) -/

/-- A recipient record; both fields may be absent. -/
structure Recipient where
  email : Option String
  name : Option String
deriving DecidableEq

/-- A shipment item of the v2 payload (`shipment_items` entries). -/
structure ShipItem where
  quantity : Option Nat
  order_item_name : Option String
deriving DecidableEq

/-- One entry of the rendered items list:
`(item.quantity || 1) + "x " + (item.order_item_name || "Item")`. -/
def renderItem (i : ShipItem) : String :=
  toString (jsOrNat i.quantity 1) ++ "x " ++ jsOrStrD i.order_item_name "Item"

/-- `itemsList` of variants 2 and 3 (lines 136–140 and 297–301). -/
def itemsList (items : List ShipItem) : String :=
  String.intercalate ", " (items.map renderItem)

/-- `itemsCount` of variants 2 and 3 (lines 142 and 303):
`reduce((sum, item) => sum + (item.quantity || 0), 0)`. -/
def itemsCount (items : List ShipItem) : Nat :=
  items.foldl (fun sum i => sum + jsOrNat i.quantity 0) 0

/-- Bodies of the webhook responses, one constructor per literal body the
three variants can return. -/
inductive WBody where
  | methodNotAllowed
  | eventNotHandled
  | noCustomerEmail
  | groupIdMissing
  | emailSentOk (orderId : Option String)
  | groupAdded2 (orderId : Option String) (email : String) (count : Nat)
  | groupAdded3 (orderId : Option String) (email : String)
  | processError
deriving DecidableEq

/-- A webhook handler response. -/
structure WResp where
  statusCode : Nat
  body : WBody
deriving DecidableEq

/-- Variant 1 order object (`payload.data.order`). -/
structure Order1 where
  recipient : Option Recipient
  external_id : Option String
  id : Option String
deriving DecidableEq

/-- Variant 1 shipment object (`payload.data.shipment`). -/
structure Shipment1 where
  tracking_number : Option String
  tracking_url : Option String
  carrier : Option String
deriving DecidableEq

/-- Variant 1 `payload.data`; either nested object may be absent. -/
structure Data1 where
  order : Option Order1
  shipment : Option Shipment1
deriving DecidableEq

/-- Variant 1 webhook payload. -/
structure Payload1 where
  type : String
  data : Option Data1
deriving DecidableEq

/-- An inbound event for variant 1; `body = none` models a body that
`JSON.parse` rejects. -/
structure Event1 where
  httpMethod : String
  body : Option Payload1
deriving DecidableEq

/-- Outbound calls variant 1 can make. -/
inductive Call1 where
  | sendEmail
deriving DecidableEq

/-- External outcomes for variant 1: the result of the email-send fetch
(`Except.error` = the fetch rejected). -/
structure Env1 where
  sendResult : Except Unit HttpResp

/-- Webhook variant 1 (lines 3–98): sends one transactional email.  There is
no missing-field check; absent intermediate objects surface as thrown field
accesses, caught at the top and mapped to 500. -/
def handler1 (ev : Event1) (env : Env1) : WResp × List Call1 :=
  if ev.httpMethod ≠ "POST" then (⟨405, .methodNotAllowed⟩, [])
  else
    match ev.body with
    | none => (⟨500, .processError⟩, [])
    | some payload =>
      if payload.type ≠ "package_shipped" then (⟨200, .eventNotHandled⟩, [])
      else
        match payload.data with
        | none => (⟨500, .processError⟩, [])
        | some d =>
          match d.order with
          | none => (⟨500, .processError⟩, [])
          | some o =>
            match o.recipient with
            | none => (⟨500, .processError⟩, [])
            | some _ =>
              match d.shipment with
              | none => (⟨500, .processError⟩, [])
              | some _ =>
                let orderNumber := jsOrO o.external_id o.id
                match env.sendResult with
                | .error _ => (⟨500, .processError⟩, [.sendEmail])
                | .ok r =>
                  if r.respOk then (⟨200, .emailSentOk orderNumber⟩, [.sendEmail])
                  else (⟨500, .processError⟩, [.sendEmail])

/-- Variants 2 and 3 order object (`shipment.order`), read through optional
chaining only. -/
structure Order2 where
  recipient : Option Recipient
  external_id : Option String
  id : Option String
deriving DecidableEq

/-- Variants 2 and 3 `payload.data`: the shipment object itself. -/
structure ShipmentData2 where
  order : Option Order2
  tracking_number : Option String
  tracking_url : Option String
  carrier : Option String
  shipment_items : Option (List ShipItem)
deriving DecidableEq

/-- Variants 2 and 3 webhook payload. -/
structure Payload2 where
  type : String
  data : Option ShipmentData2
deriving DecidableEq

/-- An inbound event for variants 2 and 3. -/
structure Event2 where
  httpMethod : String
  body : Option Payload2
deriving DecidableEq

/-- `order.recipient?.email` with `order = shipment.order || {}`. -/
def customerEmail2 (d : ShipmentData2) : Option String :=
  ((d.order.getD ⟨none, none, none⟩).recipient).bind (·.email)

/-- `order.external_id || order.id` for variants 2 and 3. -/
def orderNumber2 (d : ShipmentData2) : Option String :=
  let o := d.order.getD ⟨none, none, none⟩
  jsOrO o.external_id o.id

/-- Outbound calls variant 2 can make, in the order of its three steps. -/
inductive Call2 where
  | removeFromGroup
  | upsertSubscriber
  | addToGroup
deriving DecidableEq

/-- External outcomes for variant 2: the configured group id and the three
fetch results (`Except.error` = the fetch rejected). -/
structure Env2 where
  groupId : Option String
  deleteResult : Except Unit HttpResp
  updateResult : Except Unit HttpResp
  addResult : Except Unit HttpResp

/-- Webhook variant 2 (lines 100–259): remove the subscriber from the group,
create/update the subscriber, then add them back to the group.  The removal
result is never consulted (its rejection is caught and logged, line 177); a
non-ok non-409 create/update is only logged; a failed final add throws and
maps to 500. -/
def handler2 (ev : Event2) (env : Env2) : WResp × List Call2 :=
  if ev.httpMethod ≠ "POST" then (⟨405, .methodNotAllowed⟩, [])
  else
    match ev.body with
    | none => (⟨500, .processError⟩, [])
    | some payload =>
      if payload.type ≠ "shipment_sent" then (⟨200, .eventNotHandled⟩, [])
      else
        match payload.data with
        | none => (⟨500, .processError⟩, [])
        | some d =>
          if jsFalsy (customerEmail2 d) then (⟨400, .noCustomerEmail⟩, [])
          else if jsFalsy env.groupId then (⟨500, .groupIdMissing⟩, [])
          else
            match env.updateResult with
            | .error _ =>
              (⟨500, .processError⟩, [.removeFromGroup, .upsertSubscriber])
            | .ok _ =>
              match env.addResult with
              | .error _ =>
                (⟨500, .processError⟩,
                 [.removeFromGroup, .upsertSubscriber, .addToGroup])
              | .ok a =>
                if a.respOk then
                  (⟨200, .groupAdded2 (orderNumber2 d)
                          ((customerEmail2 d).getD "")
                          (itemsCount (d.shipment_items.getD []))⟩,
                   [.removeFromGroup, .upsertSubscriber, .addToGroup])
                else
                  (⟨500, .processError⟩,
                   [.removeFromGroup, .upsertSubscriber, .addToGroup])

/-- Outbound calls variant 3 can make. -/
inductive Call3 where
  | createSubscriber
  | updateSubscriber
deriving DecidableEq

/-- External outcomes for variant 3: the configured group id, the create
(POST) result, and the update (PATCH) result used on a 409 conflict. -/
structure Env3 where
  groupId : Option String
  createResult : Except Unit HttpResp
  patchResult : Except Unit HttpResp

/-- Webhook variant 3 (lines 261–420): one subscriber create; on a 409
conflict, a PATCH update; any other failure throws and maps to 500. -/
def handler3 (ev : Event2) (env : Env3) : WResp × List Call3 :=
  if ev.httpMethod ≠ "POST" then (⟨405, .methodNotAllowed⟩, [])
  else
    match ev.body with
    | none => (⟨500, .processError⟩, [])
    | some payload =>
      if payload.type ≠ "shipment_sent" then (⟨200, .eventNotHandled⟩, [])
      else
        match payload.data with
        | none => (⟨500, .processError⟩, [])
        | some d =>
          if jsFalsy (customerEmail2 d) then (⟨400, .noCustomerEmail⟩, [])
          else if jsFalsy env.groupId then (⟨500, .groupIdMissing⟩, [])
          else
            match env.createResult with
            | .error _ => (⟨500, .processError⟩, [.createSubscriber])
            | .ok r =>
              if r.respOk then
                (⟨200, .groupAdded3 (orderNumber2 d)
                        ((customerEmail2 d).getD "")⟩,
                 [.createSubscriber])
              else if r.status = 409 then
                match env.patchResult with
                | .error _ =>
                  (⟨500, .processError⟩, [.createSubscriber, .updateSubscriber])
                | .ok u =>
                  if u.respOk then
                    (⟨200, .groupAdded3 (orderNumber2 d)
                            ((customerEmail2 d).getD "")⟩,
                     [.createSubscriber, .updateSubscriber])
                  else
                    (⟨500, .processError⟩,
                     [.createSubscriber, .updateSubscriber])
              else (⟨500, .processError⟩, [.createSubscriber])

/-! ## Bulk-index endpoint: `src/solr/backend/index.js`, `POST /api/index` -/

/-- The Express response of the bulk-index endpoint: a status code and the
sent text (`res.send` defaults to status 200). -/
structure IndexResult where
  statusCode : Nat
  body : String
deriving DecidableEq

/-- `POST /api/index` (lines 20–30): forward the request body as the body of
one POST to the search-index update endpoint; answer `Indexed` on success
and status 500 with the error message on failure.  The returned list holds
the bodies of the outbound POSTs that were issued. -/
def apiIndex {α : Type} (reqBody : α) (solr : Except String Unit) :
    IndexResult × List α :=
  match solr with
  | .ok _ => (⟨200, "Indexed"⟩, [reqBody])
  | .error msg => (⟨500, msg⟩, [reqBody])

/-! ## Helper lemmas -/

/-- `q || 0` on an optional number is just the value with default 0. -/
lemma jsOrNat_zero (q : Option Nat) : jsOrNat q 0 = q.getD 0 := by
  cases q with
  | none => rfl
  | some n => cases n <;> simp [jsOrNat]

/-- The quantity fold of `itemsCount`, with a general accumulator. -/
lemma itemsCount_foldl (l : List ShipItem) :
    ∀ a : Nat, l.foldl (fun sum i => sum + jsOrNat i.quantity 0) a =
      a + (l.map fun i => i.quantity.getD 0).sum := by
  induction l with
  | nil => intro a; simp
  | cons hd tl ih =>
    intro a
    rw [List.foldl_cons, ih]
    simp only [List.map_cons, List.sum_cons, jsOrNat_zero]
    omega

/-- Shifting a `countP` over `List.range` by one position. -/
lemma countP_range_shift (p : Nat → Bool) (n i : Nat) :
    ((List.range (n + 1)).countP fun j => p (i + j)) =
      (if p i then 1 else 0) + ((List.range n).countP fun j => p (i + 1 + j)) := by
  rw [List.range_succ_eq_map, List.countP_cons, List.countP_map]
  have h : ((fun j => p (i + j)) ∘ Nat.succ) = fun j => p (i + 1 + j) := by
    funext j
    simp only [Function.comp]
    congr 1
    omega
  rw [h]
  simp [Nat.add_comm]

/-- The loop with accumulators equals the accumulators plus the counts of
successful sends and of errored iterations over the remaining indices. -/
lemma runLoop_counts (envF : Nat → OrderEnv) :
    ∀ (l : List PFOrder) (i s e : Nat),
      runLoop envF l i s e =
        (s + ((List.range l.length).countP fun j => (processOrder (envF (i + j))).sent),
         e + ((List.range l.length).countP fun j => (processOrder (envF (i + j))).errored)) := by
  intro l
  induction l with
  | nil => intro i s e; simp [runLoop]
  | cons hd tl ih =>
    intro i s e
    rw [runLoop, ih]
    have h1 := countP_range_shift (fun k => (processOrder (envF k)).sent) tl.length i
    have h2 := countP_range_shift (fun k => (processOrder (envF k)).errored) tl.length i
    rw [List.length_cons, h1, h2]
    simp only [Prod.mk.injEq]
    constructor <;>
      · cases hs : (processOrder (envF i)).sent <;>
          cases he : (processOrder (envF i)).errored <;>
          simp [hs, he] <;> omega

/-! ## Claim theorems -/

/-- Claim C1: in the polling job, an order whose deduplication-store read
returns the value `sent` is skipped — no send attempt, no success, no mark,
no error count; and a store read that throws makes `checkIfEmailSent` return
`false`, after which the iteration behaves exactly as if the store had held
no value for the order. -/
theorem claim1_dedup_skip_and_store_error :
    (∀ (info : Option ShipmentInfo) (sendOk : Bool),
       processOrder (.runs (.ok (some "sent")) info sendOk) =
         ⟨false, false, false, false⟩) ∧
    checkIfEmailSent (.error ()) = false ∧
    (∀ (info : Option ShipmentInfo) (sendOk : Bool),
       processOrder (.runs (.error ()) info sendOk) =
         processOrder (.runs (.ok none) info sendOk)) := by
  refine ⟨fun info sendOk => ?_, rfl, fun info sendOk => rfl⟩
  simp [processOrder, checkIfEmailSent]

/-- Claim C2: the order filter of the polling job returns the empty list on
a rejected request or a non-ok response, and otherwise keeps exactly the
orders with a nonempty shipments array whose first shipment time — the
`shipped_at` of the first shipment, falling back to the `updated` field of
the order — is strictly later than 24 hours before the current time. -/
theorem claim2_shipped_window_filter :
    (∀ now : Int, fetchRecentShippedOrders .reject now = []) ∧
    (∀ (st : Nat) (now : Int), fetchRecentShippedOrders (.notOk st) now = []) ∧
    (∀ (res : Option (List PFOrder)) (now : Int) (o : PFOrder),
       o ∈ fetchRecentShippedOrders (.ok res) now ↔
         o ∈ res.getD [] ∧ o.shipments ≠ [] ∧
           firstShipTime o > now - 24 * 60 * 60 * 1000) ∧
    (∀ (id : Nat) (s : PFShipment) (rest : List PFShipment) (upd : Int),
       firstShipTime ⟨id, s :: rest, upd⟩ = s.shipped_at.getD upd) := by
  refine ⟨fun _ => rfl, fun _ _ => rfl, fun res now o => ?_, fun _ _ _ _ => rfl⟩
  simp only [fetchRecentShippedOrders, List.mem_filter, Bool.and_eq_true,
    Bool.not_eq_true', List.isEmpty_eq_false_iff_exists_mem, decide_eq_true_eq]
  constructor
  · rintro ⟨hm, ⟨x, hx⟩, ht⟩
    exact ⟨hm, List.ne_nil_of_mem hx, ht⟩
  · rintro ⟨hm, hne, ht⟩
    rcases List.exists_mem_of_ne_nil _ hne with ⟨x, hx⟩
    exact ⟨hm, ⟨x, hx⟩, ht⟩

/-- Claim C3: when the API keys are present, the polling-job handler always
returns the 200 `completed` response, with `ordersFound` the length of the
filtered order list, `emailsSent` the number of loop iterations whose email
send reported success, and `errors` the number of iterations that failed or
raised; an iteration whose processing raises counts exactly one error and,
by the count decomposition, leaves every other iteration of the loop
untouched. -/
theorem claim3_poll_counts (fr : FetchOutcome) (now : Int)
    (oe : Nat → OrderEnv) :
    pollHandler ⟨true, fr, now, oe⟩ =
      .completed (fetchRecentShippedOrders fr now).length
        ((List.range (fetchRecentShippedOrders fr now).length).countP
          fun i => (processOrder (oe i)).sent)
        ((List.range (fetchRecentShippedOrders fr now).length).countP
          fun i => (processOrder (oe i)).errored) ∧
    (pollHandler ⟨true, fr, now, oe⟩).statusCode = 200 ∧
    processOrder .throws = ⟨false, false, false, true⟩ := by
  have hrun := runLoop_counts oe (fetchRecentShippedOrders fr now) 0 0 0
  have hmain : pollHandler ⟨true, fr, now, oe⟩ =
      .completed (fetchRecentShippedOrders fr now).length
        ((List.range (fetchRecentShippedOrders fr now).length).countP
          fun i => (processOrder (oe i)).sent)
        ((List.range (fetchRecentShippedOrders fr now).length).countP
          fun i => (processOrder (oe i)).errored) := by
    simp only [pollHandler, Bool.not_true, Bool.false_eq_true, if_false, hrun,
      Nat.zero_add]
  exact ⟨hmain, by rw [hmain]; rfl, rfl⟩

/-- Claim C8: the bulk-index endpoint issues exactly one outbound POST whose
body is the request body unchanged, answers `Indexed` (status 200) when the
call succeeds, and answers status 500 with the error message when it fails. -/
theorem claim8_bulk_index_forward {α : Type} (reqBody : α) :
    (∀ solr : Except String Unit, (apiIndex reqBody solr).2 = [reqBody]) ∧
    apiIndex reqBody (.ok ()) = (⟨200, "Indexed"⟩, [reqBody]) ∧
    (∀ msg : String, apiIndex reqBody (.error msg) = (⟨500, msg⟩, [reqBody])) := by
  refine ⟨fun solr => ?_, rfl, fun msg => rfl⟩
  cases solr <;> rfl

/-- Claim C9: a polling-job iteration marks the sent-flag exactly when the
email send reported success — on a failed or raising send the flag is not
written; and an order whose flag is absent in the store is still treated as
not sent, so it remains eligible on a later run. -/
theorem claim9_mark_only_after_success :
    (∀ e : OrderEnv, (processOrder e).marked = (processOrder e).sent) ∧
    checkIfEmailSent (.ok none) = false := by
  refine ⟨fun e => ?_, rfl⟩
  rcases e with _ | ⟨storeGet, info, sendOk⟩
  · rfl
  · simp only [processOrder]
    split
    · rfl
    · cases info
      · rfl
      · cases sendOk <;> rfl

/-- Claim C10: in webhook variants 2 and 3, `items_count` is the sum of the
item quantities with an absent quantity counted as 0, while the rendered
items list counts an absent quantity as 1 — an item with no quantity shows
as `1x` in the list yet contributes nothing to the count. -/
theorem claim10_items_count_vs_list :
    (∀ items : List ShipItem,
       itemsCount items = (items.map fun i => i.quantity.getD 0).sum) ∧
    (∀ (nm : Option String) (items : List ShipItem),
       renderItem ⟨none, nm⟩ = "1x " ++ jsOrStrD nm "Item" ∧
       itemsCount (⟨none, nm⟩ :: items) = itemsCount items) := by
  constructor
  · intro items
    rw [itemsCount, itemsCount_foldl]
    omega
  · intro nm items
    refine ⟨?_, rfl⟩
    rw [renderItem]
    have h : (toString (jsOrNat none 1) ++ "x " : String) = "1x " := by decide
    rw [h]

/-- A variant 1 event whose payload has the handled type, a recipient whose
email field is absent, and a present shipment object. -/
def evNoEmail1 : Event1 :=
  ⟨"POST", some ⟨"package_shipped",
    some ⟨some ⟨some ⟨none, some "Ann"⟩, none, some "17"⟩,
          some ⟨some "TN1", none, some "UPS"⟩⟩⟩⟩

/-- A variant 1 environment whose email-send call succeeds. -/
def envSendOk1 : Env1 := ⟨.ok ⟨200⟩⟩

/-- Claim C4 counterexample: webhook variant 1 has no missing-email check.
On a handled-type payload whose recipient has no email, with the outbound
send succeeding, it returns 200 — not 400 — and still issues the send. -/
theorem claim4_counterexample_variant1_no_email_check :
    (handler1 evNoEmail1 envSendOk1).1.statusCode = 200 ∧
    (handler1 evNoEmail1 envSendOk1).1.statusCode ≠ 400 ∧
    (handler1 evNoEmail1 envSendOk1).2 = [.sendEmail] := by decide

/-- Claim C4 as amended: on a handled-type POST whose customer email is
missing, webhook variants 2 and 3 return 400 with the no-email body and
issue no outbound call; variant 1 performs no email check and proceeds to
the send (returning 200 when the send succeeds). -/
theorem claim4_missing_email_amended :
    (∀ (d : ShipmentData2) (env : Env2),
       jsFalsy (customerEmail2 d) = true →
         handler2 ⟨"POST", some ⟨"shipment_sent", some d⟩⟩ env =
           (⟨400, .noCustomerEmail⟩, [])) ∧
    (∀ (d : ShipmentData2) (env : Env3),
       jsFalsy (customerEmail2 d) = true →
         handler3 ⟨"POST", some ⟨"shipment_sent", some d⟩⟩ env =
           (⟨400, .noCustomerEmail⟩, [])) ∧
    (∀ (nm eid oid : Option String) (sh : Shipment1),
       handler1 ⟨"POST", some ⟨"package_shipped",
           some ⟨some ⟨some ⟨none, nm⟩, eid, oid⟩, some sh⟩⟩⟩ ⟨.ok ⟨200⟩⟩ =
         (⟨200, .emailSentOk (jsOrO eid oid)⟩, [.sendEmail])) := by
  have hm : ¬(("POST" : String) ≠ "POST") := fun hc => hc rfl
  have ht2 : ¬(("shipment_sent" : String) ≠ "shipment_sent") := fun hc => hc rfl
  have ht1 : ¬(("package_shipped" : String) ≠ "package_shipped") := fun hc => hc rfl
  refine ⟨fun d env h => ?_, fun d env h => ?_, fun nm eid oid sh => ?_⟩
  · simp [handler2, if_neg hm, if_neg ht2, h]
  · simp [handler3, if_neg hm, if_neg ht2, h]
  · simp [handler1, if_neg hm, if_neg ht1, HttpResp.respOk]

/-- Claim C4 amended, witness at a concrete email-less payload. -/
theorem claim4_missing_email_amended_witness :
    handler2 ⟨"POST", some ⟨"shipment_sent",
        some ⟨some ⟨some ⟨none, some "Bo"⟩, none, some "9"⟩, none, none, none, none⟩⟩⟩
        ⟨some "g1", .ok ⟨200⟩, .ok ⟨200⟩, .ok ⟨200⟩⟩ =
      (⟨400, .noCustomerEmail⟩, []) ∧
    handler3 ⟨"POST", some ⟨"shipment_sent",
        some ⟨some ⟨some ⟨none, some "Bo"⟩, none, some "9"⟩, none, none, none, none⟩⟩⟩
        ⟨some "g1", .ok ⟨200⟩, .ok ⟨200⟩⟩ =
      (⟨400, .noCustomerEmail⟩, []) :=
  ⟨claim4_missing_email_amended.1
      ⟨some ⟨some ⟨none, some "Bo"⟩, none, some "9"⟩, none, none, none, none⟩
      ⟨some "g1", .ok ⟨200⟩, .ok ⟨200⟩, .ok ⟨200⟩⟩ (by decide),
   claim4_missing_email_amended.2.1
      ⟨some ⟨some ⟨none, some "Bo"⟩, none, some "9"⟩, none, none, none, none⟩
      ⟨some "g1", .ok ⟨200⟩, .ok ⟨200⟩⟩ (by decide)⟩

/-- Claim C5: each of the three webhook variants answers any non-POST
request with 405 and the method-not-allowed body, for every request body
(parsed or not) and every environment, issuing no outbound call. -/
theorem claim5_method_not_allowed (m : String) (h : m ≠ "POST") :
    (∀ (b : Option Payload1) (env : Env1),
       handler1 ⟨m, b⟩ env = (⟨405, .methodNotAllowed⟩, [])) ∧
    (∀ (b : Option Payload2) (env : Env2),
       handler2 ⟨m, b⟩ env = (⟨405, .methodNotAllowed⟩, [])) ∧
    (∀ (b : Option Payload2) (env : Env3),
       handler3 ⟨m, b⟩ env = (⟨405, .methodNotAllowed⟩, [])) := by
  refine ⟨fun b env => ?_, fun b env => ?_, fun b env => ?_⟩
  · simp [handler1, if_pos h]
  · simp [handler2, if_pos h]
  · simp [handler3, if_pos h]

/-- Claim C5, witness at method GET. -/
theorem claim5_method_not_allowed_witness :
    handler1 ⟨"GET", none⟩ ⟨.ok ⟨200⟩⟩ = (⟨405, .methodNotAllowed⟩, []) ∧
    handler2 ⟨"GET", none⟩ ⟨none, .ok ⟨200⟩, .ok ⟨200⟩, .ok ⟨200⟩⟩ =
      (⟨405, .methodNotAllowed⟩, []) ∧
    handler3 ⟨"GET", none⟩ ⟨none, .ok ⟨200⟩, .ok ⟨200⟩⟩ =
      (⟨405, .methodNotAllowed⟩, []) :=
  ⟨(claim5_method_not_allowed "GET" (by decide)).1 none ⟨.ok ⟨200⟩⟩,
   (claim5_method_not_allowed "GET" (by decide)).2.1 none
     ⟨none, .ok ⟨200⟩, .ok ⟨200⟩, .ok ⟨200⟩⟩,
   (claim5_method_not_allowed "GET" (by decide)).2.2 none
     ⟨none, .ok ⟨200⟩, .ok ⟨200⟩⟩⟩

/-- Claim C6: on a POST with a parseable body whose event type is not the
handled one, each variant answers 200 with the not-handled body and issues
no outbound call. -/
theorem claim6_event_type_not_handled :
    (∀ (p : Payload1) (env : Env1), p.type ≠ "package_shipped" →
       handler1 ⟨"POST", some p⟩ env = (⟨200, .eventNotHandled⟩, [])) ∧
    (∀ (p : Payload2) (env : Env2), p.type ≠ "shipment_sent" →
       handler2 ⟨"POST", some p⟩ env = (⟨200, .eventNotHandled⟩, [])) ∧
    (∀ (p : Payload2) (env : Env3), p.type ≠ "shipment_sent" →
       handler3 ⟨"POST", some p⟩ env = (⟨200, .eventNotHandled⟩, [])) := by
  have hm : ¬(("POST" : String) ≠ "POST") := fun hc => hc rfl
  refine ⟨fun p env h => ?_, fun p env h => ?_, fun p env h => ?_⟩
  · simp [handler1, if_neg hm, if_pos h]
  · simp [handler2, if_neg hm, if_pos h]
  · simp [handler3, if_neg hm, if_pos h]

/-- Claim C6, witness at a payload of type `other`. -/
theorem claim6_event_type_not_handled_witness :
    handler1 ⟨"POST", some ⟨"other", none⟩⟩ ⟨.ok ⟨200⟩⟩ =
      (⟨200, .eventNotHandled⟩, []) ∧
    handler2 ⟨"POST", some ⟨"other", none⟩⟩ ⟨none, .ok ⟨200⟩, .ok ⟨200⟩, .ok ⟨200⟩⟩ =
      (⟨200, .eventNotHandled⟩, []) ∧
    handler3 ⟨"POST", some ⟨"other", none⟩⟩ ⟨none, .ok ⟨200⟩, .ok ⟨200⟩⟩ =
      (⟨200, .eventNotHandled⟩, []) :=
  ⟨claim6_event_type_not_handled.1 ⟨"other", none⟩ ⟨.ok ⟨200⟩⟩ (by decide),
   claim6_event_type_not_handled.2.1 ⟨"other", none⟩
     ⟨none, .ok ⟨200⟩, .ok ⟨200⟩, .ok ⟨200⟩⟩ (by decide),
   claim6_event_type_not_handled.2.2 ⟨"other", none⟩
     ⟨none, .ok ⟨200⟩, .ok ⟨200⟩⟩ (by decide)⟩

/-- Claim C7: on a handled event with a customer email and a configured
group id, variant 2 issues, in order, the group removal, the subscriber
create/update, and the add-back to the group; the removal outcome never
affects the handler result, and a failed (non-ok or rejected) final add
makes the handler answer 500. -/
theorem claim7_remove_readd_order (d : ShipmentData2) (env : Env2)
    (hEmail : jsFalsy (customerEmail2 d) = false)
    (hGroup : jsFalsy env.groupId = false) :
    (∀ u : HttpResp, env.updateResult = .ok u →
       (handler2 ⟨"POST", some ⟨"shipment_sent", some d⟩⟩ env).2 =
         [.removeFromGroup, .upsertSubscriber, .addToGroup]) ∧
    (∀ d1 d2 : Except Unit HttpResp,
       handler2 ⟨"POST", some ⟨"shipment_sent", some d⟩⟩
           { env with deleteResult := d1 } =
         handler2 ⟨"POST", some ⟨"shipment_sent", some d⟩⟩
           { env with deleteResult := d2 }) ∧
    (∀ a : HttpResp, env.addResult = .ok a → a.respOk = false →
       (handler2 ⟨"POST", some ⟨"shipment_sent", some d⟩⟩ env).1.statusCode = 500) ∧
    (env.addResult = .error () →
       (handler2 ⟨"POST", some ⟨"shipment_sent", some d⟩⟩ env).1.statusCode = 500) := by
  have hm : ¬(("POST" : String) ≠ "POST") := fun hc => hc rfl
  have ht : ¬(("shipment_sent" : String) ≠ "shipment_sent") := fun hc => hc rfl
  refine ⟨fun u hu => ?_, fun d1 d2 => rfl, fun a ha hra => ?_, fun ha => ?_⟩
  · simp only [handler2, if_neg hm, if_neg ht, hEmail, hGroup, hu]
    cases haddr : env.addResult with
    | error e => simp
    | ok a => cases har : a.respOk <;> simp [har]
  · cases hupd : env.updateResult with
    | error e => simp [handler2, if_neg hm, if_neg ht, hEmail, hGroup, hupd]
    | ok u =>
      simp only [handler2, if_neg hm, if_neg ht, hEmail, hGroup, hupd, ha, hra]
      simp [hra]
  · cases hupd : env.updateResult with
    | error e => simp [handler2, if_neg hm, if_neg ht, hEmail, hGroup, hupd]
    | ok u => simp [handler2, if_neg hm, if_neg ht, hEmail, hGroup, hupd, ha]

/-- Claim C7, witness: email and group id present, create/update ok, final
add answering 500. -/
theorem claim7_remove_readd_order_witness :
    (handler2 ⟨"POST", some ⟨"shipment_sent",
        some ⟨some ⟨some ⟨some "a@b.c", some "Ann Lee"⟩, some "E1", some "9"⟩,
              some "TN", none, some "DHL", some [⟨some 2, some "Tee"⟩]⟩⟩⟩
      ⟨some "g1", .ok ⟨200⟩, .ok ⟨200⟩, .ok ⟨500⟩⟩).2 =
        [.removeFromGroup, .upsertSubscriber, .addToGroup] ∧
    (handler2 ⟨"POST", some ⟨"shipment_sent",
        some ⟨some ⟨some ⟨some "a@b.c", some "Ann Lee"⟩, some "E1", some "9"⟩,
              some "TN", none, some "DHL", some [⟨some 2, some "Tee"⟩]⟩⟩⟩
      ⟨some "g1", .ok ⟨200⟩, .ok ⟨200⟩, .ok ⟨500⟩⟩).1.statusCode = 500 :=
  ⟨(claim7_remove_readd_order
      ⟨some ⟨some ⟨some "a@b.c", some "Ann Lee"⟩, some "E1", some "9"⟩,
       some "TN", none, some "DHL", some [⟨some 2, some "Tee"⟩]⟩
      ⟨some "g1", .ok ⟨200⟩, .ok ⟨200⟩, .ok ⟨500⟩⟩
      (by decide) (by decide)).1 ⟨200⟩ rfl,
   (claim7_remove_readd_order
      ⟨some ⟨some ⟨some "a@b.c", some "Ann Lee"⟩, some "E1", some "9"⟩,
       some "TN", none, some "DHL", some [⟨some 2, some "Tee"⟩]⟩
      ⟨some "g1", .ok ⟨200⟩, .ok ⟨200⟩, .ok ⟨500⟩⟩
      (by decide) (by decide)).2.2.1 ⟨500⟩ rfl (by decide)⟩
